import Mathlib

/-!
Verification of the AI4SD water-quality dashboard prediction engines.

The repository contains several near-duplicate single-page dashboards whose
numeric core is a `predict` function plus a 14-point trend generator.  That
core is embedded here over exact rational arithmetic (JavaScript numbers are
modelled as `ℚ`; all the formulas are clamped affine expressions, so the
rational model tracks the source exactly on the documented input domain).

Variants embedded, each in its own namespace:

* `AppCap` : the capacity-based PWA variant (`ai4water_pwa_newdesign/src/App.jsx`)
* `Heur`   : the heuristic exhibition variant (the `App.jsx` produced by the
  setup script, with turbidity recommendation cut points 900/300)
* `Pwa3`   : the heuristic PWA variant whose turbidity recommendations use
  drinking-water targets (cut points 10/5)
* `Benny`  : the static capacity-based dashboard (`app.js`, no pH input)

Recommendation records carry the severity tag and the title string of the
source; the free-text `detail` strings are presentation-only and elided.
-/

/-- Severity level of a recommendation record (the source strings
"ok" / "warn" / "bad"). -/
inductive Kind where
  | ok
  | warn
  | bad
deriving DecidableEq, Repr

/-- One recommendation record: severity tag plus the title of the advice. -/
structure ActionRec where
  kind : Kind
  title : String
deriving DecidableEq, Repr

/-- The helper shared by every variant:
`const clamp = (x, a, b) => Math.min(b, Math.max(a, x))`. -/
def clamp (x a b : ℚ) : ℚ := min b (max a x)

theorem clamp_le_right (x a b : ℚ) : clamp x a b ≤ b := min_le_left b (max a x)

theorem le_clamp {a b : ℚ} (x : ℚ) (hab : a ≤ b) : a ≤ clamp x a b :=
  le_min hab (le_max_left a x)

theorem clamp_nonneg {a b : ℚ} (x : ℚ) (ha : 0 ≤ a) (hab : a ≤ b) : 0 ≤ clamp x a b :=
  ha.trans (le_clamp x hab)

theorem clamp_mono {x y : ℚ} (a b : ℚ) (h : x ≤ y) : clamp x a b ≤ clamp y a b :=
  min_le_min le_rfl (max_le_max le_rfl h)

theorem clamp_eq_right {x a b : ℚ} (hbx : b ≤ x) : clamp x a b = b :=
  min_eq_left (hbx.trans (le_max_right a x))

theorem clamp_eq_left {x a b : ℚ} (hab : a ≤ b) (hxa : x ≤ a) : clamp x a b = a := by
  rw [clamp, max_eq_left hxa, min_eq_right hab]

theorem clamp_of_le {x a b : ℚ} (hax : a ≤ x) : clamp x a b = min b x := by
  rw [clamp, max_eq_right hax]

namespace AppCap

/-- Input sample of the capacity-based variant (`predict({ pb, as, ph,
turbidity, flow_L_day, mediaMass_g, capacity_mg_g })`). -/
structure Input where
  pb : ℚ
  as : ℚ
  ph : ℚ
  turbidity : ℚ
  flow_L_day : ℚ
  mediaMass_g : ℚ
  capacity_mg_g : ℚ

/-- `clamp((turbidity - 50) / 1200, 0, 0.30)` -/
def turbPenalty (turbidity : ℚ) : ℚ := clamp ((turbidity - 50) / 1200) 0 0.30

/-- `clamp(Math.abs(ph - 7.5) / 5.0, 0, 0.20)` -/
def phPenalty (ph : ℚ) : ℚ := clamp (|ph - 7.5| / 5.0) 0 0.20

/-- `clamp(load / 10.0, 0, 0.12)` with `load = pb + as` -/
def loadPenalty (load : ℚ) : ℚ := clamp (load / 10.0) 0 0.12

/-- `clamp(0.95 - turbPenalty - phPenalty - loadPenalty, 0.55, 0.98)` -/
def pbRemoval (s : Input) : ℚ :=
  clamp (0.95 - turbPenalty s.turbidity - phPenalty s.ph - loadPenalty (s.pb + s.as)) 0.55 0.98

/-- `clamp(0.90 - turbPenalty - phPenalty - loadPenalty, 0.50, 0.97)` -/
def asRemoval (s : Input) : ℚ :=
  clamp (0.90 - turbPenalty s.turbidity - phPenalty s.ph - loadPenalty (s.pb + s.as)) 0.50 0.97

/-- `pbOut = pb * (1 - pbRemoval)` -/
def pbOut (s : Input) : ℚ := s.pb * (1 - pbRemoval s)

/-- `asOut = as * (1 - asRemoval)` -/
def asOut (s : Input) : ℚ := s.as * (1 - asRemoval s)

/-- Displayed guideline limit `limits.pb = 0.01` (mg/L). -/
def limit_pb : ℚ := 0.01

/-- Displayed guideline limit `limits.as = 0.01` (mg/L). -/
def limit_as : ℚ := 0.01

/-- `pbPass = pbOut <= limits.pb` -/
def pbPass (s : Input) : Bool := decide (pbOut s ≤ limit_pb)

/-- `asPass = asOut <= limits.as` -/
def asPass (s : Input) : Bool := decide (asOut s ≤ limit_as)

/-- `clamp(1.0 - 0.60 * clamp(turbidity / 1000, 0, 1.5), 0.35, 1.0)` -/
def foulingFactor (turbidity : ℚ) : ℚ :=
  clamp (1.0 - 0.60 * clamp (turbidity / 1000) 0 1.5) 0.35 1.0

/-- `Math.max(0, mediaMass_g * capacity_mg_g * foulingFactor)` -/
def totalCapacity_mg (s : Input) : ℚ :=
  max 0 (s.mediaMass_g * s.capacity_mg_g * foulingFactor s.turbidity)

/-- `Math.max(1e-9, pb_removed_mg_day + as_removed_mg_day)` with
`pb_removed_mg_day = Math.max(0, pb * flow_L_day) * pbRemoval` and the
analogous arsenic term. -/
def total_removed_mg_day (s : Input) : ℚ :=
  max 1e-9 (max 0 (s.pb * s.flow_L_day) * pbRemoval s + max 0 (s.as * s.flow_L_day) * asRemoval s)

/-- `clamp(totalCapacity_mg / total_removed_mg_day, 0, 365)` -/
def rulDays (s : Input) : ℚ := clamp (totalCapacity_mg s / total_removed_mg_day s) 0 365

/-- `totalTreatable_L = rulDays * flow_L_day` -/
def totalTreatable_L (s : Input) : ℚ := rulDays s * s.flow_L_day

/-- The operational-risk sum before the final clamp:
`0.10 + clamp((turbidity - 200) / 1200, 0, 0.45) + clamp(load / 12.0, 0, 0.25)
+ clamp(Math.abs(ph - 7.5) / 7.5, 0, 0.15) + clamp(flow_L_day / 8000, 0, 0.15)`. -/
def riskPre (s : Input) : ℚ :=
  0.10 + clamp ((s.turbidity - 200) / 1200) 0 0.45 + clamp ((s.pb + s.as) / 12.0) 0 0.25 +
    clamp (|s.ph - 7.5| / 7.5) 0 0.15 + clamp (s.flow_L_day / 8000) 0 0.15

/-- `risk = clamp(risk, 0.05, 0.95)` -/
def risk (s : Input) : ℚ := clamp (riskPre s) 0.05 0.95

/-- Turbidity recommendation: `>= 900` bad, `>= 300` warn, else ok. -/
def turbAction (turbidity : ℚ) : ActionRec :=
  if turbidity ≥ 900 then ⟨Kind.bad, "Very high turbidity influent"⟩
  else if turbidity ≥ 300 then ⟨Kind.warn, "High turbidity influent"⟩
  else ⟨Kind.ok, "Turbidity manageable"⟩

/-- pH recommendation: outside `[5, 9]` bad, outside `[6.5, 8.5]` warn, else ok. -/
def phAction (ph : ℚ) : ActionRec :=
  if ph < 5.0 ∨ ph > 9.0 then ⟨Kind.bad, "pH outside expected influent range"⟩
  else if ph < 6.5 ∨ ph > 8.5 then ⟨Kind.warn, "pH outside drinking-water target"⟩
  else ⟨Kind.ok, "pH within drinking-water target"⟩

/-- Metals recommendation: `!pbPass || !asPass` bad, else ok. -/
def metalsAction (s : Input) : ActionRec :=
  if !pbPass s || !asPass s then ⟨Kind.bad, "Predicted guideline exceedance"⟩
  else ⟨Kind.ok, "Predicted within Pb/As limits"⟩

/-- Risk recommendation: `>= 0.66` bad, `>= 0.33` warn, else ok. -/
def riskAction (r : ℚ) : ActionRec :=
  if r ≥ 0.66 then ⟨Kind.bad, "Operational risk high"⟩
  else if r ≥ 0.33 then ⟨Kind.warn, "Operational risk moderate"⟩
  else ⟨Kind.ok, "Operational risk low"⟩

/-- Output record of the capacity-based `predict`. -/
structure Result where
  pbRemovalPct : ℚ
  asRemovalPct : ℚ
  pbOut : ℚ
  asOut : ℚ
  risk : ℚ
  rulDays : ℚ
  totalTreatable_L : ℚ
  totalCapacity_mg : ℚ
  total_removed_mg_day : ℚ
  foulingFactor : ℚ
  pbPass : Bool
  asPass : Bool
  actions : List ActionRec

/-- The capacity-based `predict`.  The four recommendation pushes happen in
source order: turbidity, pH, metals compliance, risk. -/
def predict (s : Input) : Result :=
  { pbRemovalPct := pbRemoval s * 100
    asRemovalPct := asRemoval s * 100
    pbOut := pbOut s
    asOut := asOut s
    risk := risk s
    rulDays := rulDays s
    totalTreatable_L := totalTreatable_L s
    totalCapacity_mg := totalCapacity_mg s
    total_removed_mg_day := total_removed_mg_day s
    foulingFactor := foulingFactor s.turbidity
    pbPass := pbPass s
    asPass := asPass s
    actions := [turbAction s.turbidity, phAction s.ph, metalsAction s, riskAction (risk s)] }

/-- A point of the capacity-based trend series. -/
structure TrendPoint where
  day : ℕ
  treated : ℚ
  remaining : ℚ
deriving DecidableEq, Repr

/-- `makeTrend(rulDays, flow_L_day, totalTreatable_L)`: 14 points, day `i + 1`,
`treated = Math.min(totalTreatable_L, day * flow_L_day)`,
`pctRemaining = clamp((remainingDays / safeDays) * 100, 0, 100)` where
`safeDays = Math.max(rulDays, 1e-6)` and
`remainingDays = Math.max(0, safeDays * (1 - day / 14))`. -/
def makeTrend (rulDays flow_L_day totalTreatable_L : ℚ) : List TrendPoint :=
  (List.range 14).map fun i =>
    let day : ℕ := i + 1
    let safeDays := max rulDays 1e-6
    let frac : ℚ := (day : ℚ) / 14
    let remainingDays := max 0 (safeDays * (1 - frac))
    let treated := min totalTreatable_L ((day : ℚ) * flow_L_day)
    let pctRemaining := clamp (remainingDays / safeDays * 100) 0 100
    ⟨day, treated, pctRemaining⟩

end AppCap

namespace Heur

/-- Input sample of the heuristic exhibition variant
(`predict({ pb, as, ph, turbidity })`). -/
structure Input where
  pb : ℚ
  as : ℚ
  ph : ℚ
  turbidity : ℚ

/-- `clamp((turbidity - 50) / 1200, 0, 0.30)` -/
def turbPenalty (turbidity : ℚ) : ℚ := clamp ((turbidity - 50) / 1200) 0 0.30

/-- `clamp(Math.abs(ph - 7.5) / 5.0, 0, 0.20)` -/
def phPenalty (ph : ℚ) : ℚ := clamp (|ph - 7.5| / 5.0) 0 0.20

/-- `clamp(load / 10.0, 0, 0.12)` with `load = pb + as` -/
def loadPenalty (load : ℚ) : ℚ := clamp (load / 10.0) 0 0.12

/-- `clamp(0.95 - turbPenalty - phPenalty - loadPenalty, 0.60, 0.98)` -/
def pbRemoval (s : Input) : ℚ :=
  clamp (0.95 - turbPenalty s.turbidity - phPenalty s.ph - loadPenalty (s.pb + s.as)) 0.60 0.98

/-- `clamp(0.90 - turbPenalty - phPenalty - loadPenalty, 0.55, 0.97)` -/
def asRemoval (s : Input) : ℚ :=
  clamp (0.90 - turbPenalty s.turbidity - phPenalty s.ph - loadPenalty (s.pb + s.as)) 0.55 0.97

/-- `pbOut = pb * (1 - pbRemoval)` -/
def pbOut (s : Input) : ℚ := s.pb * (1 - pbRemoval s)

/-- `asOut = as * (1 - asRemoval)` -/
def asOut (s : Input) : ℚ := s.as * (1 - asRemoval s)

/-- The operational-risk sum before the final clamp:
`0.12 + clamp((turbidity - 200) / 1200, 0, 0.45) + clamp(load / 12.0, 0, 0.35)
+ clamp(Math.abs(ph - 7.5) / 7.5, 0, 0.20)`. -/
def riskPre (s : Input) : ℚ :=
  0.12 + clamp ((s.turbidity - 200) / 1200) 0 0.45 + clamp ((s.pb + s.as) / 12.0) 0 0.35 +
    clamp (|s.ph - 7.5| / 7.5) 0 0.20

/-- `risk = clamp(risk, 0.05, 0.95)` -/
def risk (s : Input) : ℚ := clamp (riskPre s) 0.05 0.95

/-- `pbPass = pbOut <= limits.pb` with `limits.pb = 0.01` -/
def pbPass (s : Input) : Bool := decide (pbOut s ≤ 0.01)

/-- `asPass = asOut <= limits.as` with `limits.as = 0.01` -/
def asPass (s : Input) : Bool := decide (asOut s ≤ 0.01)

/-- Turbidity recommendation: `>= 900` bad, `>= 300` warn, else ok. -/
def turbAction (turbidity : ℚ) : ActionRec :=
  if turbidity ≥ 900 then ⟨Kind.bad, "Turbidity very high"⟩
  else if turbidity ≥ 300 then ⟨Kind.warn, "Turbidity elevated"⟩
  else ⟨Kind.ok, "Turbidity controlled"⟩

/-- pH recommendation: outside `[6.5, 8.5]` warn, else ok. -/
def phAction (ph : ℚ) : ActionRec :=
  if ph < 6.5 ∨ ph > 8.5 then ⟨Kind.warn, "pH outside drinking-water range"⟩
  else ⟨Kind.ok, "pH within drinking-water range"⟩

/-- Metals recommendation: `!pbPass || !asPass` bad, else ok. -/
def metalsAction (s : Input) : ActionRec :=
  if !pbPass s || !asPass s then ⟨Kind.bad, "Guideline exceedance risk"⟩
  else ⟨Kind.ok, "Within guideline limits"⟩

/-- Risk recommendation: `>= 0.66` bad, `>= 0.33` warn, else ok. -/
def riskAction (r : ℚ) : ActionRec :=
  if r ≥ 0.66 then ⟨Kind.bad, "Breakthrough risk high"⟩
  else if r ≥ 0.33 then ⟨Kind.warn, "Breakthrough risk moderate"⟩
  else ⟨Kind.ok, "Breakthrough risk low"⟩

/-- The stress proxy used for remaining life:
`0.45 * clamp(turbidity / 1200, 0, 1) + 0.35 * clamp(load / 12.0, 0, 1)
+ 0.20 * clamp(Math.abs(ph - 7.5) / 7.5, 0, 1)`. -/
def stress (s : Input) : ℚ :=
  0.45 * clamp (s.turbidity / 1200) 0 1 + 0.35 * clamp ((s.pb + s.as) / 12.0) 0 1 +
    0.20 * clamp (|s.ph - 7.5| / 7.5) 0 1

/-- `rulDays = Math.round(clamp(30 - 24 * stress, 3, 30))`, returned as a
JavaScript number (here the integer cast back to `ℚ`). -/
def rulDays (s : Input) : ℚ := ((round (clamp (30 - 24 * stress s) 3 30) : ℤ) : ℚ)

/-- Output record of the heuristic `predict`. -/
structure Result where
  pbRemovalPct : ℚ
  asRemovalPct : ℚ
  pbOut : ℚ
  asOut : ℚ
  risk : ℚ
  rulDays : ℚ
  pbPass : Bool
  asPass : Bool
  actions : List ActionRec

/-- The heuristic `predict`.  The four recommendation pushes happen in source
order: turbidity, pH, metals compliance, risk. -/
def predict (s : Input) : Result :=
  { pbRemovalPct := pbRemoval s * 100
    asRemovalPct := asRemoval s * 100
    pbOut := pbOut s
    asOut := asOut s
    risk := risk s
    rulDays := rulDays s
    pbPass := pbPass s
    asPass := asPass s
    actions := [turbAction s.turbidity, phAction s.ph, metalsAction s, riskAction (risk s)] }

/-- A point of the heuristic trend series. -/
structure TrendPoint where
  day : ℕ
  capacity : ℚ
  breakthrough : ℚ
deriving DecidableEq, Repr

/-- `makeTrend(rulDays)`: 14 points, day `i + 1`,
`capacity = clamp(100 - (100 * day) / (rulDays * 0.55), 8, 100)`,
`breakthrough = clamp(0.15 + frac * (1.0 - capacity / 100), 0.05, 0.95) * 100`
with `frac = day / 14`.  (The same function appears verbatim in the other two
heuristic dashboard copies.) -/
def makeTrend (rulDays : ℚ) : List TrendPoint :=
  (List.range 14).map fun i =>
    let day : ℕ := i + 1
    let frac : ℚ := (day : ℚ) / 14
    let capacity := clamp (100 - 100 * (day : ℚ) / (rulDays * 0.55)) 8 100
    let breakthrough := clamp (0.15 + frac * (1.0 - capacity / 100)) 0.05 0.95 * 100
    ⟨day, capacity, breakthrough⟩

end Heur

namespace Pwa3

/-- Input sample of the drinking-water-target heuristic variant
(`predict({ pb, as, ph, turbidity })`). -/
structure Input where
  pb : ℚ
  as : ℚ
  ph : ℚ
  turbidity : ℚ

/-- `clamp((turbidity - 50) / 1200, 0, 0.30)` -/
def turbPenalty (turbidity : ℚ) : ℚ := clamp ((turbidity - 50) / 1200) 0 0.30

/-- `clamp(Math.abs(ph - 7.5) / 5.0, 0, 0.20)` -/
def phPenalty (ph : ℚ) : ℚ := clamp (|ph - 7.5| / 5.0) 0 0.20

/-- `clamp(load / 10.0, 0, 0.12)` with `load = pb + as` -/
def loadPenalty (load : ℚ) : ℚ := clamp (load / 10.0) 0 0.12

/-- `clamp(0.95 - turbPenalty - phPenalty - loadPenalty, 0.60, 0.98)` -/
def pbRemoval (s : Input) : ℚ :=
  clamp (0.95 - turbPenalty s.turbidity - phPenalty s.ph - loadPenalty (s.pb + s.as)) 0.60 0.98

/-- `clamp(0.90 - turbPenalty - phPenalty - loadPenalty, 0.55, 0.97)` -/
def asRemoval (s : Input) : ℚ :=
  clamp (0.90 - turbPenalty s.turbidity - phPenalty s.ph - loadPenalty (s.pb + s.as)) 0.55 0.97

/-- `pbOut = pb * (1 - pbRemoval)` -/
def pbOut (s : Input) : ℚ := s.pb * (1 - pbRemoval s)

/-- `asOut = as * (1 - asRemoval)` -/
def asOut (s : Input) : ℚ := s.as * (1 - asRemoval s)

/-- The operational-risk sum before the final clamp (same as the exhibition
variant). -/
def riskPre (s : Input) : ℚ :=
  0.12 + clamp ((s.turbidity - 200) / 1200) 0 0.45 + clamp ((s.pb + s.as) / 12.0) 0 0.35 +
    clamp (|s.ph - 7.5| / 7.5) 0 0.20

/-- `risk = clamp(risk, 0.05, 0.95)` -/
def risk (s : Input) : ℚ := clamp (riskPre s) 0.05 0.95

/-- `pbPass = pbOut <= limits.pb` with `limits.pb = 0.01` -/
def pbPass (s : Input) : Bool := decide (pbOut s ≤ 0.01)

/-- `asPass = asOut <= limits.as` with `limits.as = 0.01` -/
def asPass (s : Input) : Bool := decide (asOut s ≤ 0.01)

/-- Turbidity recommendation of this variant: `> 10` bad, `> 5` warn, else ok
(drinking-water targets, not the 900/300 influent cut points). -/
def turbAction (turbidity : ℚ) : ActionRec :=
  if turbidity > 10 then ⟨Kind.bad, "Turbidity exceeds drinking-water target"⟩
  else if turbidity > 5 then ⟨Kind.warn, "Turbidity above preferred range"⟩
  else ⟨Kind.ok, "Turbidity within drinking-water target"⟩

/-- pH recommendation: outside `[6.5, 8.5]` warn, else ok. -/
def phAction (ph : ℚ) : ActionRec :=
  if ph < 6.5 ∨ ph > 8.5 then ⟨Kind.warn, "pH outside drinking-water range"⟩
  else ⟨Kind.ok, "pH within drinking-water range"⟩

/-- Metals recommendation: `!pbPass || !asPass` bad, else ok. -/
def metalsAction (s : Input) : ActionRec :=
  if !pbPass s || !asPass s then ⟨Kind.bad, "Guideline exceedance risk"⟩
  else ⟨Kind.ok, "Within Pb/As guideline limits"⟩

/-- Risk recommendation: `>= 0.66` bad, `>= 0.33` warn, else ok. -/
def riskAction (r : ℚ) : ActionRec :=
  if r ≥ 0.66 then ⟨Kind.bad, "Operational risk high"⟩
  else if r ≥ 0.33 then ⟨Kind.warn, "Operational risk moderate"⟩
  else ⟨Kind.ok, "Operational risk low"⟩

/-- The stress proxy used for remaining life (same as the exhibition variant). -/
def stress (s : Input) : ℚ :=
  0.45 * clamp (s.turbidity / 1200) 0 1 + 0.35 * clamp ((s.pb + s.as) / 12.0) 0 1 +
    0.20 * clamp (|s.ph - 7.5| / 7.5) 0 1

/-- `rulDays = Math.round(clamp(30 - 24 * stress, 3, 30))`. -/
def rulDays (s : Input) : ℚ := ((round (clamp (30 - 24 * stress s) 3 30) : ℤ) : ℚ)

/-- Output record of the `predict` of this variant. -/
structure Result where
  pbRemovalPct : ℚ
  asRemovalPct : ℚ
  pbOut : ℚ
  asOut : ℚ
  risk : ℚ
  rulDays : ℚ
  pbPass : Bool
  asPass : Bool
  actions : List ActionRec

/-- The `predict` of this variant.  The four recommendation pushes happen in source
order: turbidity, pH, metals compliance, risk. -/
def predict (s : Input) : Result :=
  { pbRemovalPct := pbRemoval s * 100
    asRemovalPct := asRemoval s * 100
    pbOut := pbOut s
    asOut := asOut s
    risk := risk s
    rulDays := rulDays s
    pbPass := pbPass s
    asPass := asPass s
    actions := [turbAction s.turbidity, phAction s.ph, metalsAction s, riskAction (risk s)] }

end Pwa3

namespace Benny

/-- `const MEDIA_MASS_G = 3000` -/
def MEDIA_MASS_G : ℚ := 3000

/-- `const CAPACITY_MG_G = 6` -/
def CAPACITY_MG_G : ℚ := 6

/-- Input of the static capacity-based dashboard: `predict(pb, as, turbidity,
flow_L_day)` (no pH input in this variant). -/
structure Input where
  pb : ℚ
  as : ℚ
  turbidity : ℚ
  flow_L_day : ℚ

/-- `clamp((turbidity - 50) / 1200, 0, 0.40)` -/
def turbPenalty (turbidity : ℚ) : ℚ := clamp ((turbidity - 50) / 1200) 0 0.40

/-- `clamp(0.95 - turbPenalty, 0.60, 0.98)` -/
def pbRemoval (turbidity : ℚ) : ℚ := clamp (0.95 - turbPenalty turbidity) 0.60 0.98

/-- `clamp(0.90 - turbPenalty, 0.55, 0.97)` -/
def asRemoval (turbidity : ℚ) : ℚ := clamp (0.90 - turbPenalty turbidity) 0.55 0.97

/-- `clamp(1 - 0.60 * clamp(turbidity / 1000, 0, 1.5), 0.35, 1.0)` -/
def foulingFactor (turbidity : ℚ) : ℚ :=
  clamp (1 - 0.60 * clamp (turbidity / 1000) 0 1.5) 0.35 1.0

/-- `Math.max(0, MEDIA_MASS_G * CAPACITY_MG_G * foulingFactor)` -/
def totalCapacity_mg (turbidity : ℚ) : ℚ :=
  max 0 (MEDIA_MASS_G * CAPACITY_MG_G * foulingFactor turbidity)

/-- `Math.max(1e-9, (pb * flow) * pbRemoval + (as * flow) * asRemoval)` -/
def removed_mg_day (s : Input) : ℚ :=
  max 1e-9 (s.pb * s.flow_L_day * pbRemoval s.turbidity +
    s.as * s.flow_L_day * asRemoval s.turbidity)

/-- `days = clamp(totalCapacity_mg / removed_mg_day, 0, 365)` -/
def days (s : Input) : ℚ := clamp (totalCapacity_mg s.turbidity / removed_mg_day s) 0 365

/-- `totalTreatable_L = days * flow_L_day` -/
def totalTreatable_L (s : Input) : ℚ := days s * s.flow_L_day

/-- Output record of the static dashboard `predict`. -/
structure Result where
  pbRemovalPct : ℚ
  asRemovalPct : ℚ
  pbOut : ℚ
  asOut : ℚ
  days : ℚ
  totalTreatable_L : ℚ
  foulingFactor : ℚ
  removed_mg_day : ℚ
  totalCapacity_mg : ℚ

/-- The capacity-based `predict` of the static dashboard. -/
def predict (s : Input) : Result :=
  { pbRemovalPct := pbRemoval s.turbidity * 100
    asRemovalPct := asRemoval s.turbidity * 100
    pbOut := s.pb * (1 - pbRemoval s.turbidity)
    asOut := s.as * (1 - asRemoval s.turbidity)
    days := days s
    totalTreatable_L := totalTreatable_L s
    foulingFactor := foulingFactor s.turbidity
    removed_mg_day := removed_mg_day s
    totalCapacity_mg := totalCapacity_mg s.turbidity }

/-- A point of the static dashboard trend series. -/
structure TrendPoint where
  day : ℕ
  treated : ℚ
  remaining : ℚ
deriving DecidableEq, Repr

/-- The 14-point trend series built inline in `update` from the prediction
outputs: day `i + 1`, `treated = Math.min(totalL, day * flow)`,
`remaining = Math.max(0, (1 - day / pts)) * 100` with `pts = 14`. -/
def trendSeries (totalL flow : ℚ) : List TrendPoint :=
  (List.range 14).map fun i =>
    let day : ℕ := i + 1
    ⟨day, min totalL ((day : ℚ) * flow), max 0 (1 - (day : ℚ) / 14) * 100⟩

end Benny

/-- Severity of the turbidity check at the cut points the spec states for
every variant: `>= 900` bad, `>= 300` warn, else ok. -/
def specTurbKind (t : ℚ) : Kind :=
  if t ≥ 900 then Kind.bad else if t ≥ 300 then Kind.warn else Kind.ok

/-- Severity of the pH check as the spec states it: outside `[6.5, 8.5]`
warn, else ok. -/
def specPhKind (ph : ℚ) : Kind :=
  if ph < 6.5 ∨ ph > 8.5 then Kind.warn else Kind.ok

/-- Severity of the compliance check as the spec states it: any failed
Pb/As check bad, else ok. -/
def specComplianceKind (pbPass asPass : Bool) : Kind :=
  if pbPass && asPass then Kind.ok else Kind.bad

/-- Severity of the risk check as the spec states it: `>= 0.66` bad,
`>= 0.33` warn, else ok. -/
def specRiskKind (r : ℚ) : Kind :=
  if r ≥ 0.66 then Kind.bad else if r ≥ 0.33 then Kind.warn else Kind.ok

/-- The turbidity severities the drinking-water-target variant actually
uses: `> 10` bad, `> 5` warn, else ok. -/
def dwTurbKind (t : ℚ) : Kind :=
  if t > 10 then Kind.bad else if t > 5 then Kind.warn else Kind.ok

/-- The pH severities the capacity-based variant actually uses: outside
`[5, 9]` bad, outside `[6.5, 8.5]` warn, else ok. -/
def influentPhKind (ph : ℚ) : Kind :=
  if ph < 5.0 ∨ ph > 9.0 then Kind.bad
  else if ph < 6.5 ∨ ph > 8.5 then Kind.warn else Kind.ok

/-- C1: For every input sample, the removal fractions computed by `predict`
lie within their documented floor/ceiling bounds: in the capacity-based
variants lead removal is in `[0.55, 0.98]` and arsenic removal in
`[0.50, 0.97]`; in the heuristic variants lead removal is in `[0.60, 0.98]`
and arsenic removal in `[0.55, 0.97]`.  The percentage fields returned by
`predict` are exactly these fractions times 100. -/
theorem claim1_removal_fraction_bounds (s : AppCap.Input) (t : Heur.Input)
    (u : Pwa3.Input) (v : Benny.Input) :
    (0.55 ≤ AppCap.pbRemoval s ∧ AppCap.pbRemoval s ≤ 0.98 ∧
      0.50 ≤ AppCap.asRemoval s ∧ AppCap.asRemoval s ≤ 0.97 ∧
      (AppCap.predict s).pbRemovalPct = AppCap.pbRemoval s * 100 ∧
      (AppCap.predict s).asRemovalPct = AppCap.asRemoval s * 100) ∧
    (0.60 ≤ Heur.pbRemoval t ∧ Heur.pbRemoval t ≤ 0.98 ∧
      0.55 ≤ Heur.asRemoval t ∧ Heur.asRemoval t ≤ 0.97 ∧
      (Heur.predict t).pbRemovalPct = Heur.pbRemoval t * 100 ∧
      (Heur.predict t).asRemovalPct = Heur.asRemoval t * 100) ∧
    (0.60 ≤ Pwa3.pbRemoval u ∧ Pwa3.pbRemoval u ≤ 0.98 ∧
      0.55 ≤ Pwa3.asRemoval u ∧ Pwa3.asRemoval u ≤ 0.97) ∧
    (0.55 ≤ Benny.pbRemoval v.turbidity ∧ Benny.pbRemoval v.turbidity ≤ 0.98 ∧
      0.50 ≤ Benny.asRemoval v.turbidity ∧ Benny.asRemoval v.turbidity ≤ 0.97 ∧
      (Benny.predict v).pbRemovalPct = Benny.pbRemoval v.turbidity * 100 ∧
      (Benny.predict v).asRemovalPct = Benny.asRemoval v.turbidity * 100) := by
  exact ⟨⟨le_clamp _ (by norm_num), clamp_le_right _ _ _,
      le_clamp _ (by norm_num), clamp_le_right _ _ _, rfl, rfl⟩,
    ⟨le_clamp _ (by norm_num), clamp_le_right _ _ _,
      le_clamp _ (by norm_num), clamp_le_right _ _ _, rfl, rfl⟩,
    ⟨le_clamp _ (by norm_num), clamp_le_right _ _ _,
      le_clamp _ (by norm_num), clamp_le_right _ _ _⟩,
    ⟨le_trans (by norm_num) (le_clamp _ (by norm_num)), clamp_le_right _ _ _,
      le_trans (by norm_num) (le_clamp _ (by norm_num)), clamp_le_right _ _ _, rfl, rfl⟩⟩

/-- C2: For the `predict` of the capacity-based static dashboard with lead 0.20
mg/L, arsenic 1.00 mg/L, turbidity 500 NTU and flow 2000 L/day (media mass
3000 g, capacity 6 mg/g are constants of this variant): the turbidity penalty
is 0.375, lead removal hits its floor 0.60, arsenic removal hits its floor
0.55, outlet lead is 0.08 mg/L and outlet arsenic is 0.45 mg/L. -/
theorem claim2_example1_values :
    Benny.turbPenalty 500 = 0.375 ∧
    Benny.pbRemoval 500 = 0.60 ∧
    Benny.asRemoval 500 = 0.55 ∧
    (Benny.predict ⟨0.20, 1.00, 500, 2000⟩).pbOut = 0.08 ∧
    (Benny.predict ⟨0.20, 1.00, 500, 2000⟩).asOut = 0.45 := by
  norm_num [Benny.predict, Benny.pbRemoval, Benny.asRemoval, Benny.turbPenalty,
    clamp, min_def, max_def]

/-- C8: In both variants with recommendation lists, `predict` returns
exactly the four check records in fixed source order (turbidity, pH, Pb/As
compliance, risk), and evaluating `predict` twice on identical input yields
identical action lists. -/
theorem claim8_actions_fixed_order :
    (∀ s : AppCap.Input, (AppCap.predict s).actions =
        [AppCap.turbAction s.turbidity, AppCap.phAction s.ph, AppCap.metalsAction s,
          AppCap.riskAction (AppCap.risk s)] ∧
      (AppCap.predict s).actions.length = 4) ∧
    (∀ s : Pwa3.Input, (Pwa3.predict s).actions =
        [Pwa3.turbAction s.turbidity, Pwa3.phAction s.ph, Pwa3.metalsAction s,
          Pwa3.riskAction (Pwa3.risk s)] ∧
      (Pwa3.predict s).actions.length = 4) ∧
    (∀ s₁ s₂ : AppCap.Input, s₁ = s₂ →
      (AppCap.predict s₁).actions = (AppCap.predict s₂).actions) ∧
    (∀ s₁ s₂ : Pwa3.Input, s₁ = s₂ →
      (Pwa3.predict s₁).actions = (Pwa3.predict s₂).actions) :=
  ⟨fun _ => ⟨rfl, rfl⟩, fun _ => ⟨rfl, rfl⟩,
    fun _ _ h => by rw [h], fun _ _ h => by rw [h]⟩

/-- C8 witness: the determinism conjuncts applied at a concrete sample. -/
theorem claim8_witness :
    (AppCap.predict ⟨0.20, 1.00, 6.2, 500, 2000, 3000, 6⟩).actions =
      (AppCap.predict ⟨0.20, 1.00, 6.2, 500, 2000, 3000, 6⟩).actions ∧
    (Pwa3.predict ⟨0.20, 0.05, 8.0, 40⟩).actions =
      (Pwa3.predict ⟨0.20, 0.05, 8.0, 40⟩).actions :=
  ⟨claim8_actions_fixed_order.2.2.1 _ _ rfl, claim8_actions_fixed_order.2.2.2 _ _ rfl⟩

/-- C10: In every variant with a risk score, the score returned by `predict`
is at least the baseline offset (0.10 capacity-based, 0.12 heuristic), and
the lower bound of the final clamp 0.05 is never binding: the clamped risk equals
`min 0.95 riskPre`. -/
theorem claim10_risk_baseline (s : AppCap.Input) (t : Heur.Input) (u : Pwa3.Input) :
    (0.10 ≤ (AppCap.predict s).risk ∧
      (AppCap.predict s).risk = min 0.95 (AppCap.riskPre s)) ∧
    (0.12 ≤ (Heur.predict t).risk ∧
      (Heur.predict t).risk = min 0.95 (Heur.riskPre t)) ∧
    (0.12 ≤ (Pwa3.predict u).risk ∧
      (Pwa3.predict u).risk = min 0.95 (Pwa3.riskPre u)) := by
  have h1 := le_clamp ((s.turbidity - 200) / 1200) (show (0:ℚ) ≤ 0.45 by norm_num)
  have h2 := le_clamp ((s.pb + s.as) / 12.0) (show (0:ℚ) ≤ 0.25 by norm_num)
  have h3 := le_clamp (|s.ph - 7.5| / 7.5) (show (0:ℚ) ≤ 0.15 by norm_num)
  have h4 := le_clamp (s.flow_L_day / 8000) (show (0:ℚ) ≤ 0.15 by norm_num)
  have hpre : (0.10 : ℚ) ≤ AppCap.riskPre s := by unfold AppCap.riskPre; linarith
  have g1 := le_clamp ((t.turbidity - 200) / 1200) (show (0:ℚ) ≤ 0.45 by norm_num)
  have g2 := le_clamp ((t.pb + t.as) / 12.0) (show (0:ℚ) ≤ 0.35 by norm_num)
  have g3 := le_clamp (|t.ph - 7.5| / 7.5) (show (0:ℚ) ≤ 0.20 by norm_num)
  have gpre : (0.12 : ℚ) ≤ Heur.riskPre t := by unfold Heur.riskPre; linarith
  have k1 := le_clamp ((u.turbidity - 200) / 1200) (show (0:ℚ) ≤ 0.45 by norm_num)
  have k2 := le_clamp ((u.pb + u.as) / 12.0) (show (0:ℚ) ≤ 0.35 by norm_num)
  have k3 := le_clamp (|u.ph - 7.5| / 7.5) (show (0:ℚ) ≤ 0.20 by norm_num)
  have kpre : (0.12 : ℚ) ≤ Pwa3.riskPre u := by unfold Pwa3.riskPre; linarith
  have hm : AppCap.risk s = min 0.95 (AppCap.riskPre s) := clamp_of_le (by linarith)
  have gm : Heur.risk t = min 0.95 (Heur.riskPre t) := clamp_of_le (by linarith)
  have km : Pwa3.risk u = min 0.95 (Pwa3.riskPre u) := clamp_of_le (by linarith)
  refine ⟨⟨?_, hm⟩, ⟨?_, gm⟩, ⟨?_, km⟩⟩
  · rw [show (AppCap.predict s).risk = AppCap.risk s from rfl, hm]
    exact le_min (by norm_num) hpre
  · rw [show (Heur.predict t).risk = Heur.risk t from rfl, gm]
    exact le_min (by norm_num) gpre
  · rw [show (Pwa3.predict u).risk = Pwa3.risk u from rfl, km]
    exact le_min (by norm_num) kpre

/-- C3: In the capacity-based variants, holding lead, arsenic, pH, turbidity,
media mass and media capacity fixed at non-negative metal concentrations, the
remaining-life estimate in days returned by `predict` is monotonically
non-increasing in daily flow: for `0 ≤ f₁ ≤ f₂` the predicted days at `f₂`
are at most the predicted days at `f₁`. -/
theorem claim3_life_antitone_in_flow (pb a ph t m c f₁ f₂ : ℚ) (hpb : 0 ≤ pb)
    (ha : 0 ≤ a) (hf₁ : 0 ≤ f₁) (hf : f₁ ≤ f₂) :
    (AppCap.predict ⟨pb, a, ph, t, f₂, m, c⟩).rulDays ≤
      (AppCap.predict ⟨pb, a, ph, t, f₁, m, c⟩).rulDays ∧
    (Benny.predict ⟨pb, a, t, f₂⟩).days ≤ (Benny.predict ⟨pb, a, t, f₁⟩).days := by
  have hmul : pb * f₁ ≤ pb * f₂ := mul_le_mul_of_nonneg_left hf hpb
  have hmul2 : a * f₁ ≤ a * f₂ := mul_le_mul_of_nonneg_left hf ha
  constructor
  · show AppCap.rulDays _ ≤ AppCap.rulDays _
    have hR : (0:ℚ) ≤ AppCap.pbRemoval ⟨pb, a, ph, t, f₁, m, c⟩ :=
      le_trans (by norm_num) (le_clamp _ (by norm_num))
    have hA : (0:ℚ) ≤ AppCap.asRemoval ⟨pb, a, ph, t, f₁, m, c⟩ :=
      le_trans (by norm_num) (le_clamp _ (by norm_num))
    have hden : AppCap.total_removed_mg_day ⟨pb, a, ph, t, f₁, m, c⟩ ≤
        AppCap.total_removed_mg_day ⟨pb, a, ph, t, f₂, m, c⟩ := by
      unfold AppCap.total_removed_mg_day
      dsimp only
      exact max_le_max le_rfl
        (add_le_add
          (mul_le_mul_of_nonneg_right (max_le_max le_rfl hmul) hR)
          (mul_le_mul_of_nonneg_right (max_le_max le_rfl hmul2) hA))
    have hdpos : (0:ℚ) < AppCap.total_removed_mg_day ⟨pb, a, ph, t, f₁, m, c⟩ :=
      lt_of_lt_of_le (by norm_num) (le_max_left _ _)
    have hC : (0:ℚ) ≤ AppCap.totalCapacity_mg ⟨pb, a, ph, t, f₂, m, c⟩ := le_max_left 0 _
    unfold AppCap.rulDays
    exact clamp_mono _ _ (div_le_div_of_nonneg_left hC hdpos hden)
  · show Benny.days _ ≤ Benny.days _
    have hR : (0:ℚ) ≤ Benny.pbRemoval t := le_trans (by norm_num) (le_clamp _ (by norm_num))
    have hA : (0:ℚ) ≤ Benny.asRemoval t := le_trans (by norm_num) (le_clamp _ (by norm_num))
    have hden : Benny.removed_mg_day ⟨pb, a, t, f₁⟩ ≤ Benny.removed_mg_day ⟨pb, a, t, f₂⟩ := by
      unfold Benny.removed_mg_day
      dsimp only
      exact max_le_max le_rfl
        (add_le_add (mul_le_mul_of_nonneg_right hmul hR)
          (mul_le_mul_of_nonneg_right hmul2 hA))
    have hdpos : (0:ℚ) < Benny.removed_mg_day ⟨pb, a, t, f₁⟩ :=
      lt_of_lt_of_le (by norm_num) (le_max_left _ _)
    have hC : (0:ℚ) ≤ Benny.totalCapacity_mg t := le_max_left 0 _
    unfold Benny.days
    exact clamp_mono _ _ (div_le_div_of_nonneg_left hC hdpos hden)

/-- C3 witness: the monotonicity applied at the default sample with flow
1000 versus 2000 L/day. -/
theorem claim3_witness :
    (AppCap.predict ⟨0.20, 1.00, 6.2, 500, 2000, 3000, 6⟩).rulDays ≤
      (AppCap.predict ⟨0.20, 1.00, 6.2, 500, 1000, 3000, 6⟩).rulDays ∧
    (Benny.predict ⟨0.20, 1.00, 500, 2000⟩).days ≤
      (Benny.predict ⟨0.20, 1.00, 500, 1000⟩).days :=
  claim3_life_antitone_in_flow 0.20 1.00 6.2 500 3000 6 1000 2000
    (by norm_num) (by norm_num) (by norm_num) (by norm_num)

/-- C4: Holding lead, arsenic, pH and (in the flow-aware capacity variant)
daily flow fixed, the risk score returned by `predict` is monotonically
non-decreasing in turbidity, in every variant that computes a risk score. -/
theorem claim4_risk_monotone_in_turbidity (pb a ph f m c t₁ t₂ : ℚ) (ht : t₁ ≤ t₂) :
    (AppCap.predict ⟨pb, a, ph, t₁, f, m, c⟩).risk ≤
      (AppCap.predict ⟨pb, a, ph, t₂, f, m, c⟩).risk ∧
    (Heur.predict ⟨pb, a, ph, t₁⟩).risk ≤ (Heur.predict ⟨pb, a, ph, t₂⟩).risk ∧
    (Pwa3.predict ⟨pb, a, ph, t₁⟩).risk ≤ (Pwa3.predict ⟨pb, a, ph, t₂⟩).risk := by
  have hdiv : (t₁ - 200) / 1200 ≤ (t₂ - 200) / 1200 :=
    (div_le_div_iff_of_pos_right (by norm_num)).mpr (by linarith)
  have hcl := clamp_mono 0 0.45 hdiv
  refine ⟨?_, ?_, ?_⟩
  · show AppCap.risk _ ≤ AppCap.risk _
    apply clamp_mono
    unfold AppCap.riskPre
    dsimp only
    linarith
  · show Heur.risk _ ≤ Heur.risk _
    apply clamp_mono
    unfold Heur.riskPre
    dsimp only
    linarith
  · show Pwa3.risk _ ≤ Pwa3.risk _
    apply clamp_mono
    unfold Pwa3.riskPre
    dsimp only
    linarith

/-- C4 witness: the risk monotonicity applied at a concrete sample with
turbidity 100 versus 800 NTU. -/
theorem claim4_witness :
    (AppCap.predict ⟨0.20, 1.00, 6.2, 100, 2000, 3000, 6⟩).risk ≤
      (AppCap.predict ⟨0.20, 1.00, 6.2, 800, 2000, 3000, 6⟩).risk ∧
    (Heur.predict ⟨0.20, 1.00, 6.2, 100⟩).risk ≤ (Heur.predict ⟨0.20, 1.00, 6.2, 800⟩).risk ∧
    (Pwa3.predict ⟨0.20, 1.00, 6.2, 100⟩).risk ≤ (Pwa3.predict ⟨0.20, 1.00, 6.2, 800⟩).risk :=
  claim4_risk_monotone_in_turbidity 0.20 1.00 6.2 2000 3000 6 100 800 (by norm_num)

/-- C5: In the capacity-based variants with zero daily flow and the usable
capacity given by media mass 3000 g and capacity 6 mg/g, `predict` stays
finite: the daily removed-mass denominator is floored at the epsilon `1e-9`
and the remaining-life output equals its maximum bound of 365 days, for any
metal concentrations, pH and turbidity. -/
theorem claim5_zero_flow_clamps_to_max (pb a ph t : ℚ) :
    (AppCap.predict ⟨pb, a, ph, t, 0, 3000, 6⟩).total_removed_mg_day = 1e-9 ∧
    (AppCap.predict ⟨pb, a, ph, t, 0, 3000, 6⟩).rulDays = 365 ∧
    (Benny.predict ⟨pb, a, t, 0⟩).removed_mg_day = 1e-9 ∧
    (Benny.predict ⟨pb, a, t, 0⟩).days = 365 := by
  have hmax : max (1e-9 : ℚ) 0 = 1e-9 := max_eq_left (by norm_num)
  have hrm : AppCap.total_removed_mg_day ⟨pb, a, ph, t, 0, 3000, 6⟩ = 1e-9 := by
    simp [AppCap.total_removed_mg_day, hmax]
  have hrmB : Benny.removed_mg_day ⟨pb, a, t, 0⟩ = 1e-9 := by
    simp [Benny.removed_mg_day, hmax]
  have hff : (0.35 : ℚ) ≤ AppCap.foulingFactor t := le_clamp _ (by norm_num)
  have hffB : (0.35 : ℚ) ≤ Benny.foulingFactor t := le_clamp _ (by norm_num)
  have hcap : (6300 : ℚ) ≤ AppCap.totalCapacity_mg ⟨pb, a, ph, t, 0, 3000, 6⟩ := by
    rw [AppCap.totalCapacity_mg]
    refine le_trans ?_ (le_max_right 0 _)
    show (6300 : ℚ) ≤ 3000 * 6 * AppCap.foulingFactor t
    nlinarith [hff]
  have hcapB : (6300 : ℚ) ≤ Benny.totalCapacity_mg t := by
    rw [Benny.totalCapacity_mg]
    refine le_trans ?_ (le_max_right 0 _)
    show (6300 : ℚ) ≤ Benny.MEDIA_MASS_G * Benny.CAPACITY_MG_G * Benny.foulingFactor t
    rw [Benny.MEDIA_MASS_G, Benny.CAPACITY_MG_G]
    nlinarith [hffB]
  refine ⟨hrm, ?_, hrmB, ?_⟩
  · show AppCap.rulDays _ = 365
    rw [AppCap.rulDays, hrm]
    apply clamp_eq_right
    rw [le_div_iff₀ (by norm_num : (0:ℚ) < 1e-9)]
    linarith
  · show Benny.days _ = 365
    rw [Benny.days, hrmB]
    apply clamp_eq_right
    rw [le_div_iff₀ (by norm_num : (0:ℚ) < 1e-9)]
    linarith

theorem clamp_max_zero (y b : ℚ) : clamp (max 0 y) 0 b = clamp y 0 b := by
  rw [clamp, clamp, ← max_assoc, max_self]

theorem appCap_makeTrend_length (r f l : ℚ) : (AppCap.makeTrend r f l).length = 14 := by
  simp [AppCap.makeTrend]

theorem heur_makeTrend_length (d : ℚ) : (Heur.makeTrend d).length = 14 := by
  simp [Heur.makeTrend]

theorem benny_trendSeries_length (tl fl : ℚ) : (Benny.trendSeries tl fl).length = 14 := by
  simp [Benny.trendSeries]

/-- The remaining percentage of the capacity-based trend simplifies to a
linear decay from 100 to 0 over the 14-point window, clamped to `[0, 100]`:
the `safeDays` factor cancels out of `remainingDays / safeDays`. -/
theorem appCap_makeTrend_remaining (r f l : ℚ) (i : ℕ)
    (h : i < (AppCap.makeTrend r f l).length) :
    ((AppCap.makeTrend r f l).get ⟨i, h⟩).remaining =
      clamp ((1 - ((i : ℚ) + 1) / 14) * 100) 0 100 := by
  have hs : (0:ℚ) < max r 1e-6 := lt_of_lt_of_le (by norm_num) (le_max_right _ _)
  rw [List.get_eq_getElem]
  unfold AppCap.makeTrend
  simp only [List.getElem_map, List.getElem_range]
  rw [← max_div_div_right hs.le, zero_div, mul_div_cancel_left₀ _ hs.ne',
    max_mul_of_nonneg _ _ (by norm_num : (0:ℚ) ≤ 100), zero_mul, clamp_max_zero]
  push_cast
  ring_nf

/-- C6 counterexample: the claimed shape fails on the heuristic variants.
At the reachable prediction `rulDays = 6` (maximal stress input), the
capacity of the 14th trend point is 8 percent, whereas a linear decay down to
0 percent clamped to `[0, 100]` — whether over the 14-point window or over
the life duration — would give 0 percent there: the heuristic `makeTrend`
clamps to a floor of 8, not 0. -/
theorem claim6_counterexample :
    (Heur.predict ⟨6, 6, 15, 1200⟩).rulDays = 6 ∧
    ((Heur.makeTrend 6).get ⟨13, by simp [Heur.makeTrend]⟩).capacity = 8 ∧
    clamp ((1 - (14:ℚ)/14) * 100) 0 100 = 0 ∧
    clamp ((1 - (14:ℚ)/6) * 100) 0 100 = 0 ∧
    (8 : ℚ) ≠ 0 := by
  refine ⟨?_, ?_, ?_, ?_, by norm_num⟩
  · show Heur.rulDays _ = 6
    have habs : |(15:ℚ) - 7.5| = 7.5 := by
      rw [show (15:ℚ) - 7.5 = 7.5 by norm_num]
      exact abs_of_nonneg (by norm_num)
    have hstress : Heur.stress ⟨6, 6, 15, 1200⟩ = 1 := by
      unfold Heur.stress
      dsimp only
      rw [habs]
      norm_num [clamp, min_def, max_def]
    unfold Heur.rulDays
    rw [hstress]
    rw [show clamp (30 - 24 * 1) 3 30 = ((6:ℤ):ℚ) by norm_num [clamp, min_def, max_def]]
    rw [round_intCast]
    norm_num
  · rw [List.get_eq_getElem]
    unfold Heur.makeTrend
    simp only [List.getElem_map, List.getElem_range]
    norm_num [clamp, min_def, max_def]
  · norm_num [clamp, min_def, max_def]
  · norm_num [clamp, min_def, max_def]

/-- C6 (amended): every trend value lies in `[0, 100]` in every variant; in
the capacity-based variants the remaining percentage is exactly the linear
decay from 100 to 0 over the 14-point window clamped to `[0, 100]`, reaching
0 at day 14; in the heuristic variants the capacity value is instead floored
at 8 percent (clamped to `[8, 100]`), so it never decays to 0. -/
theorem claim6_trend_bounds (r f l d tl fl : ℚ) (i : ℕ)
    (h₁ : i < (AppCap.makeTrend r f l).length)
    (h₂ : i < (Heur.makeTrend d).length)
    (h₃ : i < (Benny.trendSeries tl fl).length) :
    (0 ≤ ((AppCap.makeTrend r f l).get ⟨i, h₁⟩).remaining ∧
      ((AppCap.makeTrend r f l).get ⟨i, h₁⟩).remaining ≤ 100 ∧
      ((AppCap.makeTrend r f l).get ⟨i, h₁⟩).remaining =
        clamp ((1 - ((i : ℚ) + 1) / 14) * 100) 0 100) ∧
    (8 ≤ ((Heur.makeTrend d).get ⟨i, h₂⟩).capacity ∧
      ((Heur.makeTrend d).get ⟨i, h₂⟩).capacity ≤ 100) ∧
    (0 ≤ ((Benny.trendSeries tl fl).get ⟨i, h₃⟩).remaining ∧
      ((Benny.trendSeries tl fl).get ⟨i, h₃⟩).remaining ≤ 100) ∧
    ((AppCap.makeTrend r f l).get
        ⟨13, by simp [AppCap.makeTrend]⟩).remaining = 0 := by
  refine ⟨⟨?_, ?_, appCap_makeTrend_remaining r f l i h₁⟩, ?_, ?_, ?_⟩
  · rw [appCap_makeTrend_remaining r f l i h₁]
    exact le_clamp _ (by norm_num)
  · rw [appCap_makeTrend_remaining r f l i h₁]
    exact clamp_le_right _ _ _
  · rw [List.get_eq_getElem]
    unfold Heur.makeTrend
    simp only [List.getElem_map, List.getElem_range]
    exact ⟨le_clamp _ (by norm_num), clamp_le_right _ _ _⟩
  · rw [List.get_eq_getElem]
    unfold Benny.trendSeries
    simp only [List.getElem_map, List.getElem_range]
    constructor
    · exact mul_nonneg (le_max_left 0 _) (by norm_num)
    · have h1 : max 0 (1 - ((i:ℚ) + 1) / 14) ≤ 1 := by
        apply max_le (by norm_num)
        have : (0:ℚ) ≤ ((i:ℚ) + 1) / 14 := by positivity
        linarith
      calc max 0 (1 - (((i + 1 : ℕ)):ℚ) / 14) * 100 ≤ 1 * 100 := by
            apply mul_le_mul_of_nonneg_right ?_ (by norm_num)
            push_cast
            exact h1
        _ = 100 := by norm_num
  · rw [appCap_makeTrend_remaining r f l 13 (by simp [AppCap.makeTrend])]
    norm_num [clamp, min_def, max_def]

/-- C6 witness: the amended bounds applied at concrete trend calls
(capacity life 10 days, flow 2000 L/day, 20000 L treatable; heuristic life
6 days; static dashboard 28000 L treatable at 2000 L/day), first point. -/
theorem claim6_witness :
    0 ≤ ((AppCap.makeTrend 10 2000 20000).get
        ⟨0, by simp [AppCap.makeTrend]⟩).remaining ∧
    8 ≤ ((Heur.makeTrend 6).get ⟨0, by simp [Heur.makeTrend]⟩).capacity :=
  ⟨(claim6_trend_bounds 10 2000 20000 6 28000 2000 0 (by simp [AppCap.makeTrend])
      (by simp [Heur.makeTrend]) (by simp [Benny.trendSeries])).1.1,
    (claim6_trend_bounds 10 2000 20000 6 28000 2000 0 (by simp [AppCap.makeTrend])
      (by simp [Heur.makeTrend]) (by simp [Benny.trendSeries])).2.1.1⟩

/-- C7: every trend generator returns exactly 14 points with day indices
1 through 14 in increasing order (`day = i + 1` at list position `i`), and
in the capacity-based variants the treated volume at day `i + 1` equals
`min(totalTreatableVolume, (i + 1) * dailyFlow)`. -/
theorem claim7_trend_shape (r f l d tl fl : ℚ) (i : ℕ)
    (h₁ : i < (AppCap.makeTrend r f l).length)
    (h₂ : i < (Heur.makeTrend d).length)
    (h₃ : i < (Benny.trendSeries tl fl).length) :
    (AppCap.makeTrend r f l).length = 14 ∧
    (Heur.makeTrend d).length = 14 ∧
    (Benny.trendSeries tl fl).length = 14 ∧
    ((AppCap.makeTrend r f l).get ⟨i, h₁⟩).day = i + 1 ∧
    ((AppCap.makeTrend r f l).get ⟨i, h₁⟩).treated = min l (((i : ℚ) + 1) * f) ∧
    ((Heur.makeTrend d).get ⟨i, h₂⟩).day = i + 1 ∧
    ((Benny.trendSeries tl fl).get ⟨i, h₃⟩).day = i + 1 ∧
    ((Benny.trendSeries tl fl).get ⟨i, h₃⟩).treated = min tl (((i : ℚ) + 1) * fl) := by
  refine ⟨appCap_makeTrend_length r f l, heur_makeTrend_length d,
    benny_trendSeries_length tl fl, ?_, ?_, ?_, ?_, ?_⟩ <;>
    rw [List.get_eq_getElem]
  · unfold AppCap.makeTrend
    simp only [List.getElem_map, List.getElem_range]
  · unfold AppCap.makeTrend
    simp only [List.getElem_map, List.getElem_range]
    push_cast
    rfl
  · unfold Heur.makeTrend
    simp only [List.getElem_map, List.getElem_range]
  · unfold Benny.trendSeries
    simp only [List.getElem_map, List.getElem_range]
  · unfold Benny.trendSeries
    simp only [List.getElem_map, List.getElem_range]
    push_cast
    rfl

/-- C7 witness: the trend shape applied at concrete trend calls, third
point. -/
theorem claim7_witness :
    ((AppCap.makeTrend 10 2000 20000).get ⟨2, by simp [AppCap.makeTrend]⟩).day = 3 ∧
    ((AppCap.makeTrend 10 2000 20000).get ⟨2, by simp [AppCap.makeTrend]⟩).treated =
      min 20000 (((2 : ℚ) + 1) * 2000) :=
  ⟨(claim7_trend_shape 10 2000 20000 6 28000 2000 2 (by simp [AppCap.makeTrend])
      (by simp [Heur.makeTrend]) (by simp [Benny.trendSeries])).2.2.2.1,
    (claim7_trend_shape 10 2000 20000 6 28000 2000 2 (by simp [AppCap.makeTrend])
      (by simp [Heur.makeTrend]) (by simp [Benny.trendSeries])).2.2.2.2.1⟩

theorem heur_turbAction_kind (t : ℚ) : (Heur.turbAction t).kind = specTurbKind t := by
  unfold Heur.turbAction specTurbKind
  split_ifs <;> rfl

theorem heur_phAction_kind (p : ℚ) : (Heur.phAction p).kind = specPhKind p := by
  unfold Heur.phAction specPhKind
  split_ifs <;> rfl

theorem heur_metalsAction_kind (s : Heur.Input) :
    (Heur.metalsAction s).kind = specComplianceKind (Heur.pbPass s) (Heur.asPass s) := by
  unfold Heur.metalsAction specComplianceKind
  cases hb : Heur.pbPass s <;> cases ha : Heur.asPass s <;> simp [hb, ha]

theorem heur_riskAction_kind (r : ℚ) : (Heur.riskAction r).kind = specRiskKind r := by
  unfold Heur.riskAction specRiskKind
  split_ifs <;> rfl

theorem appCap_turbAction_kind (t : ℚ) : (AppCap.turbAction t).kind = specTurbKind t := by
  unfold AppCap.turbAction specTurbKind
  split_ifs <;> rfl

theorem appCap_phAction_kind (p : ℚ) : (AppCap.phAction p).kind = influentPhKind p := by
  unfold AppCap.phAction influentPhKind
  split_ifs <;> rfl

theorem appCap_metalsAction_kind (s : AppCap.Input) :
    (AppCap.metalsAction s).kind = specComplianceKind (AppCap.pbPass s) (AppCap.asPass s) := by
  unfold AppCap.metalsAction specComplianceKind
  cases hb : AppCap.pbPass s <;> cases ha : AppCap.asPass s <;> simp [hb, ha]

theorem appCap_riskAction_kind (r : ℚ) : (AppCap.riskAction r).kind = specRiskKind r := by
  unfold AppCap.riskAction specRiskKind
  split_ifs <;> rfl

theorem pwa3_turbAction_kind (t : ℚ) : (Pwa3.turbAction t).kind = dwTurbKind t := by
  unfold Pwa3.turbAction dwTurbKind
  split_ifs <;> rfl

theorem pwa3_phAction_kind (p : ℚ) : (Pwa3.phAction p).kind = specPhKind p := by
  unfold Pwa3.phAction specPhKind
  split_ifs <;> rfl

theorem pwa3_metalsAction_kind (s : Pwa3.Input) :
    (Pwa3.metalsAction s).kind = specComplianceKind (Pwa3.pbPass s) (Pwa3.asPass s) := by
  unfold Pwa3.metalsAction specComplianceKind
  cases hb : Pwa3.pbPass s <;> cases ha : Pwa3.asPass s <;> simp [hb, ha]

theorem pwa3_riskAction_kind (r : ℚ) : (Pwa3.riskAction r).kind = specRiskKind r := by
  unfold Pwa3.riskAction specRiskKind
  split_ifs <;> rfl

/-- C9 counterexample: not every variant uses the cut points of the spec.  In the
drinking-water-target variant, turbidity 500 NTU produces a bad turbidity
record although the cut points of the spec (bad only at 900 or above, warn from
300) would give warn; and in the capacity-based variant, pH 4.5 produces a
bad pH record although the spec says pH outside `[6.5, 8.5]` yields warn. -/
theorem claim9_counterexample :
    (Pwa3.predict ⟨0.20, 0.05, 8.0, 500⟩).actions.map ActionRec.kind =
      [Kind.bad, Kind.ok, Kind.bad, Kind.warn] ∧
    specTurbKind 500 = Kind.warn ∧
    (AppCap.predict ⟨0.20, 1.00, 4.5, 500, 2000, 3000, 6⟩).actions.map ActionRec.kind =
      [Kind.warn, Kind.bad, Kind.bad, Kind.bad] ∧
    specPhKind 4.5 = Kind.warn ∧
    Kind.bad ≠ Kind.warn := by
  have habs8 : |(8.0:ℚ) - 7.5| = 0.5 := by
    rw [show (8.0:ℚ) - 7.5 = 0.5 by norm_num]
    exact abs_of_nonneg (by norm_num)
  have habs45 : |(4.5:ℚ) - 7.5| = 3 := by
    rw [show (4.5:ℚ) - 7.5 = -3 by norm_num]
    rw [abs_neg]
    exact abs_of_nonneg (by norm_num)
  refine ⟨?_, by norm_num [specTurbKind], ?_, by norm_num [specPhKind], by simp⟩
  · have hpb : Pwa3.pbPass ⟨0.20, 0.05, 8.0, 500⟩ = false := by
      unfold Pwa3.pbPass Pwa3.pbOut Pwa3.pbRemoval Pwa3.turbPenalty Pwa3.phPenalty
        Pwa3.loadPenalty
      dsimp only
      rw [habs8]
      norm_num [clamp, min_def, max_def]
    have hrisk : Pwa3.risk ⟨0.20, 0.05, 8.0, 500⟩ = 0.4575 := by
      unfold Pwa3.risk Pwa3.riskPre
      dsimp only
      rw [habs8]
      norm_num [clamp, min_def, max_def]
    show List.map ActionRec.kind [Pwa3.turbAction _, Pwa3.phAction _, Pwa3.metalsAction _,
      Pwa3.riskAction (Pwa3.risk _)] = _
    simp only [List.map_cons, List.map_nil, pwa3_turbAction_kind, pwa3_phAction_kind,
      pwa3_metalsAction_kind, pwa3_riskAction_kind]
    rw [hpb, hrisk]
    norm_num [dwTurbKind, specPhKind, specComplianceKind, specRiskKind]
  · have hpb : AppCap.pbPass ⟨0.20, 1.00, 4.5, 500, 2000, 3000, 6⟩ = false := by
      unfold AppCap.pbPass AppCap.pbOut AppCap.pbRemoval AppCap.turbPenalty AppCap.phPenalty
        AppCap.loadPenalty AppCap.limit_pb
      dsimp only
      rw [habs45]
      norm_num [clamp, min_def, max_def]
    have hrisk : AppCap.risk ⟨0.20, 1.00, 4.5, 500, 2000, 3000, 6⟩ = 0.75 := by
      unfold AppCap.risk AppCap.riskPre
      dsimp only
      rw [habs45]
      norm_num [clamp, min_def, max_def]
    show List.map ActionRec.kind [AppCap.turbAction _, AppCap.phAction _, AppCap.metalsAction _,
      AppCap.riskAction (AppCap.risk _)] = _
    simp only [List.map_cons, List.map_nil, appCap_turbAction_kind, appCap_phAction_kind,
      appCap_metalsAction_kind, appCap_riskAction_kind]
    rw [hpb, hrisk]
    norm_num [specTurbKind, influentPhKind, specComplianceKind, specRiskKind]

/-- C9 (amended): the severities of the four recommendation records, per
variant.  The heuristic exhibition variant uses exactly the cut points stated by the spec
(turbidity 900 bad / 300 warn; pH outside `[6.5, 8.5]` warn; any
compliance failure bad; risk 0.66 bad / 0.33 warn).  The capacity-based
variant uses them too except that pH outside `[5, 9]` escalates to bad.
The drinking-water-target variant replaces the turbidity cut points by
`> 10` bad and `> 5` warn; its other checks match the spec. -/
theorem claim9_cutpoints_amended :
    (∀ s : Heur.Input, (Heur.predict s).actions.map ActionRec.kind =
      [specTurbKind s.turbidity, specPhKind s.ph,
        specComplianceKind (Heur.pbPass s) (Heur.asPass s), specRiskKind (Heur.risk s)]) ∧
    (∀ s : AppCap.Input, (AppCap.predict s).actions.map ActionRec.kind =
      [specTurbKind s.turbidity, influentPhKind s.ph,
        specComplianceKind (AppCap.pbPass s) (AppCap.asPass s), specRiskKind (AppCap.risk s)]) ∧
    (∀ s : Pwa3.Input, (Pwa3.predict s).actions.map ActionRec.kind =
      [dwTurbKind s.turbidity, specPhKind s.ph,
        specComplianceKind (Pwa3.pbPass s) (Pwa3.asPass s), specRiskKind (Pwa3.risk s)]) := by
  refine ⟨fun s => ?_, fun s => ?_, fun s => ?_⟩
  · show List.map ActionRec.kind [Heur.turbAction _, Heur.phAction _, Heur.metalsAction _,
      Heur.riskAction (Heur.risk _)] = _
    simp only [List.map_cons, List.map_nil, heur_turbAction_kind, heur_phAction_kind,
      heur_metalsAction_kind, heur_riskAction_kind]
  · show List.map ActionRec.kind [AppCap.turbAction _, AppCap.phAction _, AppCap.metalsAction _,
      AppCap.riskAction (AppCap.risk _)] = _
    simp only [List.map_cons, List.map_nil, appCap_turbAction_kind, appCap_phAction_kind,
      appCap_metalsAction_kind, appCap_riskAction_kind]
  · show List.map ActionRec.kind [Pwa3.turbAction _, Pwa3.phAction _, Pwa3.metalsAction _,
      Pwa3.riskAction (Pwa3.risk _)] = _
    simp only [List.map_cons, List.map_nil, pwa3_turbAction_kind, pwa3_phAction_kind,
      pwa3_metalsAction_kind, pwa3_riskAction_kind]
